import Mathlib

/-!
Verification of the `ratelimit_futures` crate (src/lib.rs) against its
natural-language specification.

The crate exposes a single future type `Ratelimit` wrapping a mutable
reference to a rate limiter and a boxed timer (`Delay`).  We embed it
shallowly:

* Instants are `Nat`.
* The external limiter is an arbitrary state type `σ` together with a
  step function `checkL : σ → CheckResult × σ` mirroring
  `DirectRateLimiter::check` (which mutates the limiter and returns
  `Ok(())` or `Err(nc)` where `nc.earliest_possible()` is an instant).
* The timer (`futures_timer::Delay`) is represented by its armed
  deadline; polling it at instant `now` is ready iff `delay ≤ now`,
  and `reset` replaces the deadline.
* `Ratelimit::poll` becomes a pure step function that also records how
  many times the timer and the limiter were consulted during the step,
  and the outcome of the last limiter check, so that the spec's
  temporal/frame claims are statable.
-/

/-- Result of the limiter's non-blocking check (`DirectRateLimiter::check`):
`ok` when the request conforms, `err earliest_possible` when it does not,
carrying the earliest instant a later check might succeed
(`NonConformance::earliest_possible`). -/
inductive CheckResult where
  | ok : CheckResult
  | err (earliest_possible : Nat) : CheckResult
  deriving DecidableEq

/-- Result of one poll step, mirroring `std::task::Poll<()>`. -/
inductive Poll where
  | Ready : Poll
  | Pending : Poll
  deriving DecidableEq

/-- The gate state: the `Ratelimit` struct of src/lib.rs.  `delay` is the
armed deadline of the boxed `Delay` timer, `limiter` the state of the
borrowed rate limiter, `first_time` the eager-first-check flag. -/
structure Ratelimit (σ : Type) where
  delay : Nat
  limiter : σ
  first_time : Bool
  deriving DecidableEq

/-- Everything one `poll` invocation produces: the `Poll` result, the
successor gate state, and instrumentation read off the control flow of
`Future::poll` in src/lib.rs: how many times `self.delay` was polled,
how many times `self.check()` ran, and the outcome of the last
`self.check()` in the step (`none` when no check ran). -/
structure PollStep (σ : Type) where
  result : Poll
  state : Ratelimit σ
  timerPolls : Nat
  checks : Nat
  lastCheck : Option Bool
  deriving DecidableEq

/-- `Ratelimit::check` (src/lib.rs lines 74-83): run the limiter's check;
on `Ok(())` return success with no change to the gate's own fields; on
`Err(nc)` reset the timer to `nc.earliest_possible()` and return failure.
`true` stands for `Ok(())`, `false` for `Err(())`. -/
def Ratelimit.check {σ : Type} (checkL : σ → CheckResult × σ)
    (g : Ratelimit σ) : Bool × Ratelimit σ :=
  match checkL g.limiter with
  | (CheckResult.ok, s) => (true, { g with limiter := s })
  | (CheckResult.err earliest, s) =>
      (false, { g with limiter := s, delay := earliest })

/-- `Ratelimit::new` (src/lib.rs lines 87-93): a fresh gate whose timer is
`Delay::new(Duration::default())`, i.e. armed to the construction instant
`t0` itself (a zero-duration, already-elapsed deadline), with
`first_time = true` and the borrowed limiter untouched. -/
def Ratelimit.new {σ : Type} (t0 : Nat) (limiter : σ) : Ratelimit σ :=
  { delay := t0, limiter := limiter, first_time := true }

/-- The tail of `Future::poll` after the `first_time` block (src/lib.rs
lines 111-124): poll the delay; if ready, check the limiter — success
completes, failure polls the re-armed delay once more (line 117, result
discarded) and stays pending; if the delay is not ready, stay pending.
`checksSoFar`/`lastSoFar` carry instrumentation from the `first_time`
block. -/
def Ratelimit.pollDelay {σ : Type} (checkL : σ → CheckResult × σ)
    (now : Nat) (g : Ratelimit σ) (checksSoFar : Nat)
    (lastSoFar : Option Bool) : PollStep σ :=
  if g.delay ≤ now then
    match Ratelimit.check checkL g with
    | (true, g2) => ⟨Poll.Ready, g2, 1, checksSoFar + 1, some true⟩
    | (false, g2) => ⟨Poll.Pending, g2, 2, checksSoFar + 1, some false⟩
  else
    ⟨Poll.Pending, g, 1, checksSoFar, lastSoFar⟩

/-- `Future::poll` for `Ratelimit` (src/lib.rs lines 102-125): on the
first attempt clear `first_time` and check eagerly, returning `Ready`
(without touching the timer) on success; otherwise fall through to the
delay-polling tail. -/
def Ratelimit.poll {σ : Type} (checkL : σ → CheckResult × σ)
    (now : Nat) (g : Ratelimit σ) : PollStep σ :=
  if g.first_time then
    match Ratelimit.check checkL { g with first_time := false } with
    | (true, g2) => ⟨Poll.Ready, g2, 0, 1, some true⟩
    | (false, g2) => Ratelimit.pollDelay checkL now g2 1 (some false)
  else
    Ratelimit.pollDelay checkL now g 0 none

/-- Iterate `Ratelimit.check` a number of times (used to express claims
about consecutive checks). -/
def Ratelimit.iterateCheck {σ : Type} (checkL : σ → CheckResult × σ) :
    Nat → Ratelimit σ → Ratelimit σ
  | 0, g => g
  | n + 1, g => Ratelimit.iterateCheck checkL n (Ratelimit.check checkL g).2

/-- A limiter that always admits. -/
def alwaysOk : Unit → CheckResult × Unit := fun _ => (CheckResult.ok, ())

/-- A limiter that always denies, reporting `e` as the earliest possible
instant. -/
def alwaysErr (e : Nat) : Unit → CheckResult × Unit :=
  fun _ => (CheckResult.err e, ())

/-- A limiter whose internal state is the list of outcomes it will
return, in order; once exhausted it admits. -/
def traceCheck : List CheckResult → CheckResult × List CheckResult
  | [] => (CheckResult.ok, [])
  | r :: rs => (r, rs)

/-- The outcome trace of a limiter that denies once per listed instant. -/
def denialTrace (es : List Nat) : List CheckResult :=
  es.map CheckResult.err

/-- Helper: `Ratelimit.check` never touches the `first_time` flag. -/
theorem check_first_time {σ : Type} (checkL : σ → CheckResult × σ)
    (g : Ratelimit σ) :
    ((Ratelimit.check checkL g).2).first_time = g.first_time := by
  rcases hc : checkL g.limiter with ⟨r, s2⟩
  cases r <;> simp [Ratelimit.check, hc]

/-- Helper: the delay-polling tail never touches the `first_time` flag. -/
theorem pollDelay_first_time {σ : Type} (checkL : σ → CheckResult × σ)
    (now : Nat) (g : Ratelimit σ) (c : Nat) (l : Option Bool) :
    ((Ratelimit.pollDelay checkL now g c l).state).first_time =
      g.first_time := by
  unfold Ratelimit.pollDelay
  split
  · have h := check_first_time checkL g
    rcases hc : Ratelimit.check checkL g with ⟨b, g2⟩
    rw [hc] at h
    cases b <;> simpa [hc] using h
  · rfl

/-- Helper: after any poll step the `first_time` flag is `false`. -/
theorem poll_state_first_time {σ : Type} (checkL : σ → CheckResult × σ)
    (now : Nat) (g : Ratelimit σ) :
    (Ratelimit.poll checkL now g).state.first_time = false := by
  unfold Ratelimit.poll
  by_cases hf : g.first_time = true
  · simp only [hf, if_true]
    have h := check_first_time checkL { g with first_time := false }
    rcases hc : Ratelimit.check checkL { g with first_time := false }
      with ⟨b, g2⟩
    rw [hc] at h
    cases b
    · simpa [hc, pollDelay_first_time] using h
    · simpa [hc] using h
  · have hf2 : g.first_time = false := by simpa using hf
    simp [hf2, pollDelay_first_time]

/-- C3: each invocation of the gate's admission check forwards the
limiter's verdict: on admission it returns success and leaves every gate
field other than the borrowed limiter state unchanged; on denial it
re-arms the timer to exactly the `earliest_possible` instant carried by
the denial and returns failure. -/
theorem check_spec {σ : Type} (checkL : σ → CheckResult × σ)
    (g : Ratelimit σ) :
    (∀ s, checkL g.limiter = (CheckResult.ok, s) →
        Ratelimit.check checkL g = (true, { g with limiter := s })) ∧
    (∀ e s, checkL g.limiter = (CheckResult.err e, s) →
        Ratelimit.check checkL g =
          (false, { g with limiter := s, delay := e })) := by
  constructor
  · intro s h
    simp [Ratelimit.check, h]
  · intro e s h
    simp [Ratelimit.check, h]

/-- Witness for C3: both branches at concrete inputs. -/
theorem check_spec_witness :
    Ratelimit.check alwaysOk (Ratelimit.new 0 ()) =
      (true, { Ratelimit.new 0 () with limiter := () }) ∧
    Ratelimit.check (alwaysErr 7) (Ratelimit.new 0 ()) =
      (false, { Ratelimit.new 0 () with limiter := (), delay := 7 }) :=
  ⟨(check_spec alwaysOk (Ratelimit.new 0 ())).1 () rfl,
   (check_spec (alwaysErr 7) (Ratelimit.new 0 ())).2 7 () rfl⟩

/-- C4: when the limiter admits on the first check, the very first poll of
a fresh gate returns `Ready` without polling the timer at all. -/
theorem immediate_admission {σ : Type} (checkL : σ → CheckResult × σ)
    (s0 s1 : σ) (t0 now : Nat) (h : checkL s0 = (CheckResult.ok, s1)) :
    (Ratelimit.poll checkL now (Ratelimit.new t0 s0)).result = Poll.Ready ∧
    (Ratelimit.poll checkL now (Ratelimit.new t0 s0)).timerPolls = 0 := by
  simp [Ratelimit.poll, Ratelimit.new, Ratelimit.check, h]

/-- Witness for C4 at a concrete always-admitting limiter. -/
theorem immediate_admission_witness :
    alwaysOk () = (CheckResult.ok, ()) ∧
    (Ratelimit.poll alwaysOk 3 (Ratelimit.new 0 ())).result = Poll.Ready ∧
    (Ratelimit.poll alwaysOk 3 (Ratelimit.new 0 ())).timerPolls = 0 :=
  ⟨rfl, immediate_admission alwaysOk () () 0 3 rfl⟩

/-- C5: a poll step returns `Ready` only when the last limiter check run
inside that very step returned admission (so at least one check ran);
completion is never inferred from the timer alone. -/
theorem ready_only_after_admission {σ : Type} (checkL : σ → CheckResult × σ)
    (now : Nat) (g : Ratelimit σ)
    (h : (Ratelimit.poll checkL now g).result = Poll.Ready) :
    (Ratelimit.poll checkL now g).lastCheck = some true ∧
    1 ≤ (Ratelimit.poll checkL now g).checks := by
  revert h
  unfold Ratelimit.poll Ratelimit.pollDelay
  split
  · split
    · intro _; exact ⟨rfl, by simp⟩
    · split
      · split
        · intro _; exact ⟨rfl, by simp⟩
        · intro h; exact Poll.noConfusion h
      · intro h; exact Poll.noConfusion h
  · split
    · split
      · intro _; exact ⟨rfl, by simp⟩
      · intro h; exact Poll.noConfusion h
    · intro h; exact Poll.noConfusion h

/-- Witness for C5: first poll of an always-admitting limiter. -/
theorem ready_only_after_admission_witness :
    (Ratelimit.poll alwaysOk 0 (Ratelimit.new 0 ())).result = Poll.Ready ∧
    ((Ratelimit.poll alwaysOk 0 (Ratelimit.new 0 ())).lastCheck = some true ∧
     1 ≤ (Ratelimit.poll alwaysOk 0 (Ratelimit.new 0 ())).checks) :=
  ⟨rfl, ready_only_after_admission alwaysOk 0 (Ratelimit.new 0 ()) rfl⟩

/-- C7: `first_time` is `true` at construction, is cleared during the
first poll step, and no operation (neither `check` nor any later `poll`)
ever sets it back to `true`. -/
theorem first_attempt_lifecycle {σ : Type} (checkL : σ → CheckResult × σ)
    (t0 now : Nat) (s : σ) (g : Ratelimit σ) :
    (Ratelimit.new t0 s).first_time = true ∧
    ((Ratelimit.check checkL g).2).first_time = g.first_time ∧
    (Ratelimit.poll checkL now g).state.first_time = false :=
  ⟨rfl, check_first_time checkL g, poll_state_first_time checkL now g⟩

/-- C8: `new` yields a gate with `first_time = true`, a timer armed to
the construction instant itself (hence already elapsed), and the borrowed
limiter state untouched — no check is performed and no other effect
occurs. -/
theorem new_spec {σ : Type} (t0 : Nat) (s : σ) :
    (Ratelimit.new t0 s).first_time = true ∧
    (Ratelimit.new t0 s).delay = t0 ∧
    (Ratelimit.new t0 s).delay ≤ t0 ∧
    (Ratelimit.new t0 s).limiter = s :=
  ⟨rfl, rfl, Nat.le_refl t0, rfl⟩

/-- C9: on a non-first poll step whose timer has not yet elapsed, the
step returns `Pending`, the whole gate state (limiter included) is
unchanged, and the limiter check is never invoked. -/
theorem pending_frame {σ : Type} (checkL : σ → CheckResult × σ)
    (now : Nat) (g : Ratelimit σ) (hf : g.first_time = false)
    (ht : now < g.delay) :
    (Ratelimit.poll checkL now g).result = Poll.Pending ∧
    (Ratelimit.poll checkL now g).state = g ∧
    (Ratelimit.poll checkL now g).checks = 0 := by
  have hle : ¬ g.delay ≤ now := by omega
  simp [Ratelimit.poll, Ratelimit.pollDelay, hf, hle]

/-- Witness for C9: a non-first gate with deadline 5 polled at instant 0. -/
theorem pending_frame_witness :
    ((⟨5, (), false⟩ : Ratelimit Unit).first_time = false ∧
     (0 : Nat) < (⟨5, (), false⟩ : Ratelimit Unit).delay) ∧
    ((Ratelimit.poll alwaysOk 0 ⟨5, (), false⟩).result = Poll.Pending ∧
     (Ratelimit.poll alwaysOk 0 ⟨5, (), false⟩).state = ⟨5, (), false⟩ ∧
     (Ratelimit.poll alwaysOk 0 ⟨5, (), false⟩).checks = 0) :=
  ⟨⟨rfl, by decide⟩,
   pending_frame alwaysOk 0 ⟨5, (), false⟩ rfl (by decide)⟩

/-- C10: on a non-first poll step whose timer has elapsed and whose check
is denied, the step returns `Pending` unconditionally — the reported
`earliest_possible` instant `e` is arbitrary and may already be in the
past — with the timer re-armed to `e`, the second timer poll having been
issued and its result discarded. -/
theorem denial_same_step_pending {σ : Type} (checkL : σ → CheckResult × σ)
    (now : Nat) (g : Ratelimit σ) (e : Nat) (s : σ)
    (hf : g.first_time = false) (ht : g.delay ≤ now)
    (hc : checkL g.limiter = (CheckResult.err e, s)) :
    (Ratelimit.poll checkL now g).result = Poll.Pending ∧
    (Ratelimit.poll checkL now g).state.delay = e ∧
    (Ratelimit.poll checkL now g).timerPolls = 2 := by
  simp [Ratelimit.poll, Ratelimit.pollDelay, Ratelimit.check, hf, ht, hc]

/-- Witness for C10: the re-armed deadline 0 is already past at instant 5,
yet the step still returns `Pending`. -/
theorem denial_same_step_pending_witness :
    ((⟨2, (), false⟩ : Ratelimit Unit).first_time = false ∧
     (⟨2, (), false⟩ : Ratelimit Unit).delay ≤ 5 ∧
     alwaysErr 0 ((⟨2, (), false⟩ : Ratelimit Unit).limiter) =
       (CheckResult.err 0, ())) ∧
    ((Ratelimit.poll (alwaysErr 0) 5 ⟨2, (), false⟩).result = Poll.Pending ∧
     (Ratelimit.poll (alwaysErr 0) 5 ⟨2, (), false⟩).state.delay = 0 ∧
     (Ratelimit.poll (alwaysErr 0) 5 ⟨2, (), false⟩).timerPolls = 2) :=
  ⟨⟨rfl, by decide, rfl⟩,
   denial_same_step_pending (alwaysErr 0) 5 ⟨2, (), false⟩ 0 ()
     rfl (by decide) rfl⟩

/-- C2: evaluation of the denial branch at a concrete input: a non-first
poll at instant 0 with an elapsed timer and an always-denying limiter
polls the timer twice in the one step (the second poll is line 117 of
src/lib.rs, whose result is discarded) before returning `Pending` — the
code does not perform the claimed single re-arm without a second timer
poll. -/
theorem double_timer_poll_on_denial :
    (Ratelimit.poll (alwaysErr 7) 0 ⟨0, (), false⟩).timerPolls = 2 ∧
    (Ratelimit.poll (alwaysErr 7) 0 ⟨0, (), false⟩).result = Poll.Pending ∧
    (Ratelimit.poll (alwaysErr 7) 0 ⟨0, (), false⟩).state.delay = 7 :=
  ⟨rfl, rfl, rfl⟩

/-- C1 counterexample: with an always-admitting limiter, the first poll
completes (`Ready`); polling the completed gate again runs the limiter
check once more (`checks = 1`) and even resolves a second time. -/
theorem completed_repoll_rechecks :
    (Ratelimit.poll alwaysOk 0 (Ratelimit.new 0 ())).result = Poll.Ready ∧
    (Ratelimit.poll alwaysOk 0
        (Ratelimit.poll alwaysOk 0 (Ratelimit.new 0 ())).state).checks = 1 ∧
    (Ratelimit.poll alwaysOk 0
        (Ratelimit.poll alwaysOk 0 (Ratelimit.new 0 ())).state).result =
      Poll.Ready :=
  ⟨rfl, rfl, rfl⟩

/-- C1 amended: the gate stores no completion marker, so a poll after
completion behaves like any non-first poll — it invokes no limiter check
exactly when the timer deadline has not yet elapsed, and re-triggers a
check (and can resolve again) whenever it has. -/
theorem post_completion_recheck_iff_elapsed {σ : Type}
    (checkL : σ → CheckResult × σ) (now : Nat) (g : Ratelimit σ)
    (hf : g.first_time = false) :
    (Ratelimit.poll checkL now g).checks = 0 ↔ now < g.delay := by
  by_cases hle : g.delay ≤ now
  · rcases hc : Ratelimit.check checkL g with ⟨b, g2⟩
    cases b <;> simp [Ratelimit.poll, Ratelimit.pollDelay, hf, hle, hc]
  · simp [Ratelimit.poll, Ratelimit.pollDelay, hf, hle]
    omega

/-- Witness for C1's amended statement: a completed (non-first) gate with
deadline 9 polled at instant 4 performs no check. -/
theorem post_completion_recheck_iff_elapsed_witness :
    (⟨9, (), false⟩ : Ratelimit Unit).first_time = false ∧
    ((Ratelimit.poll alwaysOk 4 ⟨9, (), false⟩).checks = 0 ↔ (4 : Nat) < 9) :=
  ⟨rfl, post_completion_recheck_iff_elapsed alwaysOk 4 ⟨9, (), false⟩ rfl⟩

/-- Helper for C6: consuming a trace that begins with denials at the
listed instants, the delay after the last of those denials is the last
listed instant, whatever followed in the trace. -/
theorem iterateCheck_denials : ∀ (es : List Nat) (e : Nat)
    (g : Ratelimit (List CheckResult)) (rest : List CheckResult),
    g.limiter = denialTrace (es ++ [e]) ++ rest →
    (Ratelimit.iterateCheck traceCheck (es.length + 1) g).delay = e := by
  intro es
  induction es with
  | nil =>
      intro e g rest h
      simp [Ratelimit.iterateCheck, Ratelimit.check, denialTrace,
        traceCheck, h]
  | cons a es ih =>
      intro e g rest h
      have h2 : (Ratelimit.check traceCheck g).2.limiter =
          denialTrace (es ++ [e]) ++ rest := by
        simp [Ratelimit.check, denialTrace, traceCheck, h]
      have h3 := ih e (Ratelimit.check traceCheck g).2 rest h2
      simpa [Ratelimit.iterateCheck] using h3

/-- C6: under a sequence of consecutive denied checks whose reported
`earliest_possible` instants are strictly increasing, after each denial
the armed deadline equals the most recently reported instant (stated for
every prefix via the arbitrary split `es ++ [e]`). -/
theorem monotonic_rearm (es : List Nat) (e : Nat) (d : Nat) (ft : Bool)
    (hmono : List.Chain' (· < ·) (es ++ [e])) :
    (Ratelimit.iterateCheck traceCheck (es.length + 1)
        ⟨d, denialTrace (es ++ [e]), ft⟩).delay = e :=
  iterateCheck_denials es e ⟨d, denialTrace (es ++ [e]), ft⟩ [] (by simp)

/-- Witness for C6: denials at instants 3 then 5 leave the deadline at 5. -/
theorem monotonic_rearm_witness :
    List.Chain' (fun x y => x < y) ([3] ++ [5]) ∧
    (Ratelimit.iterateCheck traceCheck ([3].length + 1)
        ⟨0, denialTrace ([3] ++ [5]), false⟩).delay = 5 :=
  ⟨by norm_num [List.chain'_cons], monotonic_rearm [3] 5 0 false
    (by norm_num [List.chain'_cons])⟩
